import Mathlib

/-!
Shallow embedding of the monitoring engine of `monitoring_service.py`:
the sample types, the in-memory session recorder, the body of the ping
loop with its outage tracking, the body of the speed loop, the engine
lifecycle (`start`, `stop`) and session persistence (summary computation
and index update).

Timestamps are modelled as natural numbers, latencies and ratios as
rationals.  The filesystem is modelled as an explicit log of write
actions plus a standalone model of the index file for `_update_index`.
Exceptions raised by the injected probe and downloader callables are
modelled as explicit outcome values handed to the loop body.
-/

/-- Mirrors dataclass `PingSample` (timestamp, target, latency_ms,
success, timeout, error). -/
structure PingSample where
  timestamp : Nat
  target : String
  latency_ms : Option ℚ
  success : Bool
  timeout : Bool
  error : Option String
deriving DecidableEq

/-- Mirrors dataclass `SpeedSample` (timestamp, direction, size_bytes,
duration_seconds, throughput_mbps, error). -/
structure SpeedSample where
  timestamp : Nat
  direction : String
  size_bytes : Nat
  duration_seconds : ℚ
  throughput_mbps : ℚ
  error : Option String
deriving DecidableEq

/-- Mirrors dataclass `OutageEvent` (start, end, failure_count); the
`end` field is named `end_` because `end` is a Lean keyword. -/
structure OutageEvent where
  start : Nat
  end_ : Option Nat
  failure_count : Nat
deriving DecidableEq

/-- Mirrors class `SessionRecorder`: three append-only collections.  The
lock only serializes the appends; the sequential model makes each record
call atomic. -/
structure SessionRecorder where
  pings : List PingSample
  speeds : List SpeedSample
  outages : List OutageEvent
deriving DecidableEq

/-- Mirrors `SessionRecorder.__init__`. -/
def emptyRecorder : SessionRecorder :=
  { pings := [], speeds := [], outages := [] }

/-- Mirrors `SessionRecorder.record_ping` (append under the lock). -/
def record_ping (r : SessionRecorder) (sample : PingSample) : SessionRecorder :=
  { r with pings := r.pings ++ [sample] }

/-- Mirrors `SessionRecorder.record_speed` (append under the lock). -/
def record_speed (r : SessionRecorder) (sample : SpeedSample) : SessionRecorder :=
  { r with speeds := r.speeds ++ [sample] }

/-- Mirrors `SessionRecorder.record_outage` (append under the lock). -/
def record_outage (r : SessionRecorder) (outage : OutageEvent) : SessionRecorder :=
  { r with outages := r.outages ++ [outage] }

/-- The value returned by `SessionRecorder.snapshot`: a copy of the
three collections. -/
structure Snapshot where
  pings : List PingSample
  speeds : List SpeedSample
  outages : List OutageEvent
deriving DecidableEq

/-- Mirrors `SessionRecorder.snapshot`: returns copies (`list(...)`) of
the three collections taken under the lock. -/
def snapshot (r : SessionRecorder) : Snapshot :=
  { pings := r.pings, speeds := r.speeds, outages := r.outages }

/-- Outcome of one call of the injected `ping_probe` callable inside
`_ping_loop`: a returned value (possibly `None`), a raised
`TimeoutError`, or any other raised exception with its message. -/
inductive ProbeOutcome where
  | value (latency : Option ℚ)
  | timeoutError
  | otherError (msg : String)
deriving DecidableEq

/-- The `success` flag `_ping_loop` derives from a probe outcome:
`latency_ms is not None` on a normal return, `False` on any exception. -/
def outcomeSuccess : ProbeOutcome → Bool
  | ProbeOutcome.value l => l.isSome
  | _ => false

/-- The `latency_ms` value `_ping_loop` holds after the try/except: the
returned value, or `None` when the probe raised. -/
def outcomeLatency : ProbeOutcome → Option ℚ
  | ProbeOutcome.value l => l
  | _ => none

/-- The `timeout` flag `_ping_loop` sets: `True` exactly on a raised
`TimeoutError`. -/
def outcomeTimeout : ProbeOutcome → Bool
  | ProbeOutcome.timeoutError => true
  | _ => false

/-- The `error` text `_ping_loop` sets: `"timeout"` on a `TimeoutError`,
the exception message on any other exception, `None` on a return. -/
def outcomeError : ProbeOutcome → Option String
  | ProbeOutcome.value _ => none
  | ProbeOutcome.timeoutError => some "timeout"
  | ProbeOutcome.otherError msg => some msg

/-- State of one `MonitoringService` instance: constructor configuration
plus all mutable attributes.  Threads are modelled as
`Option Bool` (`none` = never created, `some b` = created with
`is_alive() = b`); `stop_event` is the `threading.Event` flag. -/
structure Engine where
  target : String
  consecutive_failure_threshold : Nat
  speed_blob_url : Option String
  speed_blob_bytes : Nat
  stop_event : Bool
  ping_thread : Option Bool
  speed_thread : Option Bool
  total_pings : Nat
  success_pings : Nat
  failed_pings : Nat
  consecutive_failures : Nat
  current_outage : Option OutageEvent
  failure_streak_start : Option Nat
  session_started_at : Option Nat
  recorder : SessionRecorder
deriving DecidableEq

/-- Mirrors `MonitoringService.__init__` for the attributes the claims
touch; the threshold is clamped with `max(1, ...)` as in the source. -/
def initEngine (target : String) (threshold : Nat) (url : Option String)
    (blob_bytes : Nat) : Engine :=
  { target := target
    consecutive_failure_threshold := max 1 threshold
    speed_blob_url := url
    speed_blob_bytes := blob_bytes
    stop_event := false
    ping_thread := none
    speed_thread := none
    total_pings := 0
    success_pings := 0
    failed_pings := 0
    consecutive_failures := 0
    current_outage := none
    failure_streak_start := none
    session_started_at := none
    recorder := emptyRecorder }

/-- One iteration of the body of `MonitoringService._ping_loop` at
sample time `sample_time` with probe outcome `outcome`: derives
`success`/`timeout`/`latency_ms`/`error`, updates the counters, the
outage-tracking state and the recorder exactly as the source does. -/
def pingStep (e : Engine) (sample_time : Nat) (outcome : ProbeOutcome) : Engine :=
  let latency_ms : Option ℚ := outcomeLatency outcome
  let success : Bool := outcomeSuccess outcome
  let timeout : Bool := outcomeTimeout outcome
  let error : Option String := outcomeError outcome
  let e1 := { e with total_pings := e.total_pings + 1 }
  let e2 :=
    if success then
      let es := { e1 with success_pings := e1.success_pings + 1
                          consecutive_failures := 0
                          failure_streak_start := none }
      match es.current_outage with
      | some o =>
          { es with recorder := record_outage es.recorder { o with end_ := some sample_time }
                    current_outage := none }
      | none => es
    else
      let ef := { e1 with failed_pings := e1.failed_pings + 1
                          consecutive_failures := e1.consecutive_failures + 1 }
      let ef2 :=
        if ef.failure_streak_start = none then
          { ef with failure_streak_start := some sample_time }
        else ef
      if ef2.current_outage = none ∧
          ef2.consecutive_failure_threshold ≤ ef2.consecutive_failures then
        let outage_start := ef2.failure_streak_start.getD sample_time
        let opened : OutageEvent :=
          { start := outage_start
            end_ := none
            failure_count := ef2.consecutive_failures }
        { ef2 with current_outage := some opened }
      else
        match ef2.current_outage with
        | some o =>
            { ef2 with
              current_outage :=
                some { o with failure_count := ef2.consecutive_failures } }
        | none => ef2
  let sample : PingSample :=
    { timestamp := sample_time
      target := e.target
      latency_ms := latency_ms
      success := success
      timeout := timeout
      error := error }
  { e2 with recorder := record_ping e2.recorder sample }

/-- A sequence of ping-loop iterations, one per `(timestamp, outcome)`
event, processed left to right. -/
def pingRun (e : Engine) (evs : List (Nat × ProbeOutcome)) : Engine :=
  evs.foldl (fun acc ev => pingStep acc ev.1 ev.2) e

/-- Mirrors `MonitoringService._close_active_outage`: if an outage is
open, set its end to the current time, record it, and clear it. -/
def close_active_outage (e : Engine) (now : Nat) : Engine :=
  match e.current_outage with
  | some o =>
      { e with recorder := record_outage e.recorder { o with end_ := some now }
               current_outage := none }
  | none => e

/-- One iteration of `MonitoringService._run_speed_sample`.  The
`result` argument is the outcome of whichever transfer ran (the
fixed-size downloader or the continuous one): a returned `SpeedSample`
or a raised exception with its message. -/
def runSpeedSample (e : Engine) (sample_time : Nat)
    (result : Except String SpeedSample) : Engine :=
  match e.speed_blob_url with
  | none => e
  | some _ =>
      let speed_sample :=
        match result with
        | Except.error msg =>
            ({ timestamp := sample_time
               direction := "download"
               size_bytes := e.speed_blob_bytes
               duration_seconds := 0
               throughput_mbps := 0
               error := some msg } : SpeedSample)
        | Except.ok s => { s with timestamp := sample_time }
      { e with recorder := record_speed e.recorder speed_sample }

/-- Mirrors `MonitoringService.start`: a no-op if the ping thread exists
and is alive; otherwise clears the stop event, records the session start
time only if not already set, and launches both threads. -/
def start (e : Engine) (now : Nat) : Engine :=
  match e.ping_thread with
  | some true => e
  | _ =>
      { e with
        stop_event := false
        session_started_at :=
          match e.session_started_at with
          | none => some now
          | some t => some t
        ping_thread := some true
        speed_thread := some true }

/-- Encoding of `MonitoringService._session_id`: a deterministic
textual encoding of the session start timestamp (the source's
`strftime("%Y%m%dT%H%M%SZ")` is abstracted as an injective decimal
rendering), falling back to the current time when no start is set. -/
def session_id_of (e : Engine) (now : Nat) : String :=
  toString (e.session_started_at.getD now)

/-- Sum of a list of rationals, used for the average latency. -/
def listSum : List ℚ → ℚ
  | [] => 0
  | x :: xs => x + listSum xs

/-- Minimum of a list of rationals, `none` on the empty list
(mirrors Python `min` guarded by the emptiness check). -/
def listMin : List ℚ → Option ℚ
  | [] => none
  | x :: xs =>
      match listMin xs with
      | none => some x
      | some y => some (min x y)

/-- Maximum of a list of rationals, `none` on the empty list
(mirrors Python `max` guarded by the emptiness check). -/
def listMax : List ℚ → Option ℚ
  | [] => none
  | x :: xs =>
      match listMax xs with
      | none => some x
      | some y => some (max x y)

/-- Mirrors dataclass `SessionSummary`; the `end` field is named `end_`
because `end` is a Lean keyword; durations are in abstract time units. -/
structure SessionSummary where
  session_id : String
  start : Nat
  end_ : Nat
  duration_seconds : Nat
  uptime_ratio : ℚ
  interruption_count : Nat
  interruption_durations : List Nat
  average_ping_ms : Option ℚ
  min_ping_ms : Option ℚ
  max_ping_ms : Option ℚ
  total_pings : Nat
  successful_pings : Nat
  failed_pings : Nat
  pings : List PingSample
  speed_samples : List SpeedSample
  outages : List OutageEvent
deriving DecidableEq

/-- The summary computation inside `MonitoringService._persist_session`
(lines between the snapshot and the construction of `SessionSummary`),
for a session that started at `started_at` and ends at `end_time`. -/
def mkSummary (e : Engine) (started_at : Nat) (end_time : Nat) : SessionSummary :=
  let snap := snapshot e.recorder
  let successful_latencies :=
    snap.pings.filterMap fun p =>
      if p.success ∧ p.latency_ms ≠ none then p.latency_ms else none
  let average_ping : Option ℚ :=
    if successful_latencies ≠ [] then
      some (listSum successful_latencies / successful_latencies.length)
    else none
  let duration_seconds := end_time - started_at
  let interruption_durations :=
    snap.outages.filterMap fun o => o.end_.map fun t => t - o.start
  { session_id := session_id_of e end_time
    start := started_at
    end_ := end_time
    duration_seconds := duration_seconds
    uptime_ratio :=
      if e.total_pings ≠ 0 then (e.success_pings : ℚ) / (e.total_pings : ℚ) else 0
    interruption_count := snap.outages.length
    interruption_durations := interruption_durations
    average_ping_ms := average_ping
    min_ping_ms := listMin successful_latencies
    max_ping_ms := listMax successful_latencies
    total_pings := e.total_pings
    successful_pings := e.success_pings
    failed_pings := e.failed_pings
    pings := snap.pings
    speed_samples := snap.speeds
    outages := snap.outages }

/-- Log of the filesystem writes performed by `_persist_session`: one
entry per session-file write (session id and the payload summary) and
one per index update (the upserted session id). -/
structure Store where
  session_writes : List (String × SessionSummary)
  index_writes : List String
deriving DecidableEq

/-- The filesystem before any write. -/
def emptyStore : Store :=
  { session_writes := [], index_writes := [] }

/-- Mirrors `MonitoringService._persist_session`: returns immediately
when no session start is recorded; otherwise computes the summary from
a snapshot, writes the session file and updates the index. -/
def persist_session (e : Engine) (now : Nat) (fs : Store) : Store :=
  match e.session_started_at with
  | none => fs
  | some started_at =>
      let session := mkSummary e started_at now
      { fs with
        session_writes := fs.session_writes ++ [(session.session_id, session)]
        index_writes := fs.index_writes ++ [session.session_id] }

/-- Mirrors `MonitoringService.stop`: sets the stop event, joins both
threads (after which they are no longer alive), closes any active
outage, and persists the session. -/
def stop (e : Engine) (now : Nat) (fs : Store) : Engine × Store :=
  let e1 := { e with stop_event := true }
  let e2 :=
    { e1 with
      ping_thread := e1.ping_thread.map fun _ => false
      speed_thread := e1.speed_thread.map fun _ => false }
  let e3 := close_active_outage e2 now
  (e3, persist_session e3 now fs)

/-- One entry of the cross-session index file, as written by
`_update_index`; `end` is named `end_` because it is a Lean keyword. -/
structure IndexEntry where
  file : String
  start : Nat
  end_ : Nat
  duration_seconds : Nat
  uptime_ratio : ℚ
deriving DecidableEq

/-- The digest `_update_index` stores for a session. -/
def indexEntryOf (session : SessionSummary) (file_name : String) : IndexEntry :=
  { file := file_name
    start := session.start
    end_ := session.end_
    duration_seconds := session.duration_seconds
    uptime_ratio := SessionSummary.uptime_ratio session }

/-- The three possible reads of the existing index file in
`_update_index`: the file does not exist, it exists but fails to parse
(`json.JSONDecodeError`), or it parses to a mapping. -/
inductive IndexRead where
  | missing
  | malformed
  | parsed (entries : List (String × IndexEntry))
deriving DecidableEq

/-- The mapping `_update_index` starts from: the parsed content when the
file exists and parses, the empty mapping otherwise. -/
def indexBase : IndexRead → List (String × IndexEntry)
  | IndexRead.parsed entries => entries
  | _ => []

/-- Assignment `index[sid] = entry` on an insertion-ordered mapping
(Python dict semantics): an existing key keeps its position and gets the
new value, a new key is appended. -/
def upsertEntry : List (String × IndexEntry) → String → IndexEntry →
    List (String × IndexEntry)
  | [], sid, entry => [(sid, entry)]
  | (k, v) :: rest, sid, entry =>
      if k = sid then (sid, entry) :: rest
      else (k, v) :: upsertEntry rest sid entry

/-- Mirrors `MonitoringService._update_index`: read the existing index
(missing or malformed content becomes the empty mapping), upsert the
session's entry, and write the result back. -/
def update_index (prior : IndexRead) (sid : String) (entry : IndexEntry) :
    List (String × IndexEntry) :=
  upsertEntry (indexBase prior) sid entry

/-- Lookup in an insertion-ordered mapping (Python `index.get(k)`). -/
def lookupKey : List (String × IndexEntry) → String → Option IndexEntry
  | [], _ => none
  | (k, v) :: rest, sid => if k = sid then some v else lookupKey rest sid

/-- An operation on the whole engine: one ping-loop iteration, one
speed-loop iteration, or a lifecycle call.  Sequences of these model
the interleavings of the loops with the caller's thread. -/
inductive EngineOp where
  | pingOp (t : Nat) (o : ProbeOutcome)
  | speedOp (t : Nat) (r : Except String SpeedSample)
  | startOp (t : Nat)
  | stopOp (t : Nat)

/-- Apply one `EngineOp` to the engine-plus-filesystem state. -/
def applyOp : Engine × Store → EngineOp → Engine × Store
  | (e, fs), EngineOp.pingOp t o => (pingStep e t o, fs)
  | (e, fs), EngineOp.speedOp t r => (runSpeedSample e t r, fs)
  | (e, fs), EngineOp.startOp t => (start e t, fs)
  | (e, fs), EngineOp.stopOp t => stop e t fs

/-- Run a sequence of engine operations from a given state. -/
def runOps (init : Engine × Store) (ops : List EngineOp) : Engine × Store :=
  ops.foldl applyOp init

/-- One append to the session recorder, for the frame property of
`snapshot`. -/
inductive RecOp where
  | rping (p : PingSample)
  | rspeed (s : SpeedSample)
  | routage (o : OutageEvent)

/-- Apply one recorder operation. -/
def applyRecOp (r : SessionRecorder) : RecOp → SessionRecorder
  | RecOp.rping p => record_ping r p
  | RecOp.rspeed s => record_speed r s
  | RecOp.routage o => record_outage r o

/-- Run a sequence of recorder operations. -/
def runRecOps (r : SessionRecorder) (ops : List RecOp) : SessionRecorder :=
  ops.foldl applyRecOp r

/-- The ping samples appended by a sequence of recorder operations, in
order. -/
def opsPings (ops : List RecOp) : List PingSample :=
  ops.filterMap fun op =>
    match op with
    | RecOp.rping p => some p
    | _ => none

/-- The speed samples appended by a sequence of recorder operations, in
order. -/
def opsSpeeds (ops : List RecOp) : List SpeedSample :=
  ops.filterMap fun op =>
    match op with
    | RecOp.rspeed s => some s
    | _ => none

/-- The outage events appended by a sequence of recorder operations, in
order. -/
def opsOutages (ops : List RecOp) : List OutageEvent :=
  ops.filterMap fun op =>
    match op with
    | RecOp.routage o => some o
    | _ => none

/-- Modelled from the spec: the trailing failure streak of an outcome
sequence, as the spec describes `AccumulatingFailures(streakStart,
count)` — the timestamp of the first failure of the current streak (or
`none` when healthy) together with the count of consecutive trailing
failures.  One transition of the tracker per event. -/
def streakStep (acc : Option Nat × Nat) (ev : Nat × ProbeOutcome) :
    Option Nat × Nat :=
  if outcomeSuccess ev.2 then (none, 0)
  else (if acc.2 = 0 then some ev.1 else acc.1, acc.2 + 1)

/-- Modelled from the spec: streak start and consecutive-failure count
of the trailing failure streak of a whole event sequence. -/
def streakInfo (evs : List (Nat × ProbeOutcome)) : Option Nat × Nat :=
  evs.foldl streakStep (none, 0)

/-- Explicit form of `pingStep` on a successful probe (a returned
latency value): counters advance, the streak resets, and an open outage
is closed into the recorder. -/
theorem pingStep_success_eq (e : Engine) (t : Nat) (l : ℚ) :
    pingStep e t (ProbeOutcome.value (some l)) =
      { e with
        total_pings := e.total_pings + 1
        success_pings := e.success_pings + 1
        consecutive_failures := 0
        failure_streak_start := none
        current_outage := none
        recorder :=
          record_ping
            (match e.current_outage with
             | some o => record_outage e.recorder { o with end_ := some t }
             | none => e.recorder)
            { timestamp := t
              target := e.target
              latency_ms := some l
              success := true
              timeout := false
              error := none } } := by
  cases h : e.current_outage <;>
    simp [pingStep, outcomeSuccess, outcomeLatency, outcomeTimeout, outcomeError, h]

/-- Explicit form of `pingStep` on a failed probe: counters advance, the
streak start is initialized if absent, an outage opens exactly when none
is open and the threshold is reached, and no outage is recorded. -/
theorem pingStep_failure_eq (e : Engine) (t : Nat) (o : ProbeOutcome)
    (ho : outcomeSuccess o = false) :
    pingStep e t o =
      { e with
        total_pings := e.total_pings + 1
        failed_pings := e.failed_pings + 1
        consecutive_failures := e.consecutive_failures + 1
        failure_streak_start :=
          if e.failure_streak_start = none then some t else e.failure_streak_start
        current_outage :=
          if e.current_outage = none ∧
              e.consecutive_failure_threshold ≤ e.consecutive_failures + 1 then
            some { start := (if e.failure_streak_start = none then some t
                             else e.failure_streak_start).getD t
                   end_ := none
                   failure_count := e.consecutive_failures + 1 }
          else
            e.current_outage.map fun oo =>
              { oo with failure_count := e.consecutive_failures + 1 }
        recorder :=
          record_ping e.recorder
            { timestamp := t
              target := e.target
              latency_ms := none
              success := false
              timeout := outcomeTimeout o
              error := outcomeError o } } := by
  have hl : outcomeLatency o = none := by
    cases o with
    | value l => cases l with
      | none => rfl
      | some x => simp [outcomeSuccess] at ho
    | timeoutError => rfl
    | otherError msg => rfl
  by_cases hth : e.consecutive_failure_threshold ≤ e.consecutive_failures + 1 <;>
    cases hfs : e.failure_streak_start <;>
      cases hco : e.current_outage <;>
        simp [pingStep, hl, ho, hfs, hco, hth]

/-- The streak fields of the engine track `streakStep`, and the
coupling `failure_streak_start = none ↔ consecutive_failures = 0` is
preserved by every ping-loop iteration. -/
theorem pingStep_streak (e : Engine) (t : Nat) (o : ProbeOutcome)
    (hinv : e.failure_streak_start = none ↔ e.consecutive_failures = 0) :
    ((pingStep e t o).failure_streak_start, (pingStep e t o).consecutive_failures)
        = streakStep (e.failure_streak_start, e.consecutive_failures) (t, o) ∧
      ((pingStep e t o).failure_streak_start = none ↔
        (pingStep e t o).consecutive_failures = 0) := by
  cases hs : outcomeSuccess o with
  | true =>
      obtain ⟨l, rfl⟩ : ∃ l, o = ProbeOutcome.value (some l) := by
        cases o with
        | value l =>
            cases l with
            | none => simp [outcomeSuccess] at hs
            | some x => exact ⟨x, rfl⟩
        | timeoutError => simp [outcomeSuccess] at hs
        | otherError msg => simp [outcomeSuccess] at hs
      rw [pingStep_success_eq]
      simp [streakStep, outcomeSuccess]
  | false =>
      rw [pingStep_failure_eq e t o hs]
      cases hfs : e.failure_streak_start with
      | none =>
          have hcf : e.consecutive_failures = 0 := hinv.mp hfs
          simp [streakStep, hs, hfs, hcf]
      | some s =>
          have hcf : e.consecutive_failures ≠ 0 := by
            intro h
            have := hinv.mpr h
            rw [hfs] at this
            exact Option.noConfusion this
          simp [streakStep, hs, hfs, hcf]

/-- Running the ping loop over an event list folds `streakStep` over
the events, starting from the engine's current streak fields. -/
theorem pingRun_streak (evs : List (Nat × ProbeOutcome)) (e : Engine)
    (hinv : e.failure_streak_start = none ↔ e.consecutive_failures = 0) :
    ((pingRun e evs).failure_streak_start, (pingRun e evs).consecutive_failures)
        = evs.foldl streakStep (e.failure_streak_start, e.consecutive_failures) ∧
      ((pingRun e evs).failure_streak_start = none ↔
        (pingRun e evs).consecutive_failures = 0) := by
  induction evs generalizing e with
  | nil => exact ⟨rfl, hinv⟩
  | cons ev evs ih =>
      have hstep := pingStep_streak e ev.1 ev.2 hinv
      have hrec := ih (pingStep e ev.1 ev.2) hstep.2
      constructor
      · rw [pingRun] at hrec ⊢
        rw [List.foldl_cons, List.foldl_cons, ← hstep.1]
        exact hrec.1
      · rw [pingRun] at hrec ⊢
        rw [List.foldl_cons]
        exact hrec.2

/-- A ping-loop iteration never changes the configured threshold. -/
theorem pingStep_threshold (e : Engine) (t : Nat) (o : ProbeOutcome) :
    (pingStep e t o).consecutive_failure_threshold =
      e.consecutive_failure_threshold := by
  cases hs : outcomeSuccess o with
  | true =>
      obtain ⟨l, rfl⟩ : ∃ l, o = ProbeOutcome.value (some l) := by
        cases o with
        | value l =>
            cases l with
            | none => simp [outcomeSuccess] at hs
            | some x => exact ⟨x, rfl⟩
        | timeoutError => simp [outcomeSuccess] at hs
        | otherError msg => simp [outcomeSuccess] at hs
      rw [pingStep_success_eq]
  | false => rw [pingStep_failure_eq e t o hs]

/-- Running the ping loop never changes the configured threshold. -/
theorem pingRun_threshold (e : Engine) (evs : List (Nat × ProbeOutcome)) :
    (pingRun e evs).consecutive_failure_threshold =
      e.consecutive_failure_threshold := by
  induction evs generalizing e with
  | nil => rfl
  | cons ev evs ih =>
      have h1 : pingRun e (ev :: evs) = pingRun (pingStep e ev.1 ev.2) evs := by
        rw [pingRun, pingRun, List.foldl_cons]
      rw [h1, ih, pingStep_threshold]

/-- Processing one more event is one more ping-loop iteration. -/
theorem pingRun_append (e : Engine) (evs : List (Nat × ProbeOutcome))
    (ev : Nat × ProbeOutcome) :
    pingRun e (evs ++ [ev]) = pingStep (pingRun e evs) ev.1 ev.2 := by
  rw [pingRun, pingRun, List.foldl_append, List.foldl_cons, List.foldl_nil]

/-- Claim C1: outages open only at the threshold, backdated to the first
failure of the streak.  For any engine built by `initEngine` and any
event history leaving no outage open, a further failed probe opens an
outage exactly when the trailing consecutive-failure count reaches the
threshold; the opened outage is backdated to the first failure of the
trailing streak and carries the full streak count; below the threshold
nothing is opened and nothing is recorded.  Moreover, with threshold 3
and outcomes `[ok, fail@t1, fail@t2, fail@t3, ok@t4]`, no outage is
recorded before the success at `t4`, and the recorded outage has
`start = t1`, `failure_count = 3` and `end = t4`. -/
theorem ping_loop_outage_threshold (tg : String) (th : Nat) (url : Option String)
    (bs : Nat) (evs : List (Nat × ProbeOutcome)) (t : Nat) (o : ProbeOutcome)
    (ho : outcomeSuccess o = false)
    (hc : (pingRun (initEngine tg th url bs) evs).current_outage = none) :
    (((streakInfo (evs ++ [(t, o)])).2 < max 1 th →
        (pingStep (pingRun (initEngine tg th url bs) evs) t o).current_outage = none ∧
          (pingStep (pingRun (initEngine tg th url bs) evs) t o).recorder.outages =
            (pingRun (initEngine tg th url bs) evs).recorder.outages) ∧
      (max 1 th ≤ (streakInfo (evs ++ [(t, o)])).2 →
        ∃ s, (streakInfo (evs ++ [(t, o)])).1 = some s ∧
          (pingStep (pingRun (initEngine tg th url bs) evs) t o).current_outage =
            some { start := s
                   end_ := none
                   failure_count := (streakInfo (evs ++ [(t, o)])).2 })) ∧
    (∀ t0 t1 t2 t3 t4 : Nat, ∀ l : ℚ,
      (pingRun (initEngine tg 3 url bs)
          [(t0, ProbeOutcome.value (some l)), (t1, ProbeOutcome.value none),
            (t2, ProbeOutcome.value none)]).recorder.outages = [] ∧
      (pingRun (initEngine tg 3 url bs)
          [(t0, ProbeOutcome.value (some l)), (t1, ProbeOutcome.value none),
            (t2, ProbeOutcome.value none)]).current_outage = none ∧
      (pingRun (initEngine tg 3 url bs)
          [(t0, ProbeOutcome.value (some l)), (t1, ProbeOutcome.value none),
            (t2, ProbeOutcome.value none), (t3, ProbeOutcome.value none)]).recorder.outages
          = [] ∧
      (pingRun (initEngine tg 3 url bs)
          [(t0, ProbeOutcome.value (some l)), (t1, ProbeOutcome.value none),
            (t2, ProbeOutcome.value none), (t3, ProbeOutcome.value none)]).current_outage
          = some { start := t1, end_ := none, failure_count := 3 } ∧
      (pingRun (initEngine tg 3 url bs)
          [(t0, ProbeOutcome.value (some l)), (t1, ProbeOutcome.value none),
            (t2, ProbeOutcome.value none), (t3, ProbeOutcome.value none),
            (t4, ProbeOutcome.value (some l))]).recorder.outages
          = [{ start := t1, end_ := some t4, failure_count := 3 }]) := by
  constructor
  · have hinv0 : (initEngine tg th url bs).failure_streak_start = none ↔
        (initEngine tg th url bs).consecutive_failures = 0 := by
      simp [initEngine]
    have hrun := pingRun_streak evs (initEngine tg th url bs) hinv0
    have hfs0 : (initEngine tg th url bs).failure_streak_start = none := rfl
    have hcf0 : (initEngine tg th url bs).consecutive_failures = 0 := rfl
    rw [hfs0, hcf0] at hrun
    set E := pingRun (initEngine tg th url bs) evs with hE
    have hth : E.consecutive_failure_threshold = max 1 th := by
      rw [hE, pingRun_threshold]
      rfl
    have hstreak : streakInfo evs = (E.failure_streak_start, E.consecutive_failures) := by
      rw [streakInfo]
      exact hrun.1.symm
    have hlast : streakInfo (evs ++ [(t, o)]) =
        ((if E.consecutive_failures = 0 then some t else E.failure_streak_start),
          E.consecutive_failures + 1) := by
      rw [streakInfo, List.foldl_append, List.foldl_cons, List.foldl_nil,
        ← streakInfo, hstreak, streakStep]
      simp [ho]
    have hfail := pingStep_failure_eq E t o ho
    constructor
    · intro hlt
      rw [hlast] at hlt
      have hlt2 : ¬ E.consecutive_failure_threshold ≤ E.consecutive_failures + 1 := by
        rw [hth]
        omega
      constructor
      · rw [hfail]
        simp [hc, hlt2]
      · rw [hfail]
        simp [record_ping]
    · intro hge
      rw [hlast] at hge
      have hge2 : E.consecutive_failure_threshold ≤ E.consecutive_failures + 1 := by
        rw [hth]
        omega
      rw [hlast]
      cases hcf : E.consecutive_failures with
      | zero =>
          have hfs : E.failure_streak_start = none := hrun.2.mpr hcf
          rw [hcf] at hge2
          refine ⟨t, by simp, ?_⟩
          rw [hfail]
          simp [hc, hge2, hfs, hcf]
      | succ n =>
          obtain ⟨s, hfs⟩ : ∃ s, E.failure_streak_start = some s := by
            cases hfsx : E.failure_streak_start with
            | none =>
                have habs := hrun.2.mp hfsx
                rw [hcf] at habs
                exact absurd habs (Nat.succ_ne_zero n)
            | some s => exact ⟨s, rfl⟩
          rw [hcf] at hge2
          refine ⟨s, by simp [hcf, hfs], ?_⟩
          rw [hfail]
          simp [hc, hge2, hfs, hcf]
  · intro t0 t1 t2 t3 t4 l
    refine ⟨?_, ?_, ?_, ?_, ?_⟩ <;>
      simp [pingRun, pingStep, initEngine, emptyRecorder, outcomeSuccess,
        outcomeLatency, outcomeTimeout, outcomeError, record_ping, record_outage]

/-- Witness for the outage-threshold theorem: two failures then a third
at threshold 3 opens an outage backdated to the first failure. -/
theorem ping_loop_outage_threshold_witness :
    outcomeSuccess (ProbeOutcome.value none) = false ∧
    (pingRun (initEngine "host" 3 none 0)
        [(0, ProbeOutcome.value none), (1, ProbeOutcome.value none)]).current_outage
      = none ∧
    (max 1 3 ≤ (streakInfo ([(0, ProbeOutcome.value none), (1, ProbeOutcome.value none)]
        ++ [(2, ProbeOutcome.value none)])).2 →
      ∃ s, (streakInfo ([(0, ProbeOutcome.value none), (1, ProbeOutcome.value none)]
          ++ [(2, ProbeOutcome.value none)])).1 = some s ∧
        (pingStep (pingRun (initEngine "host" 3 none 0)
            [(0, ProbeOutcome.value none), (1, ProbeOutcome.value none)]) 2
            (ProbeOutcome.value none)).current_outage =
          some { start := s
                 end_ := none
                 failure_count := (streakInfo ([(0, ProbeOutcome.value none),
                   (1, ProbeOutcome.value none)] ++ [(2, ProbeOutcome.value none)])).2 }) :=
  ⟨by decide, by decide,
    (ping_loop_outage_threshold "host" 3 none 0
      [(0, ProbeOutcome.value none), (1, ProbeOutcome.value none)] 2
      (ProbeOutcome.value none) (by decide) (by decide)).1.2⟩

/-- A ping-loop iteration either leaves the stored outages unchanged or
appends a single outage whose end is set to the sample time. -/
theorem pingStep_outages (e : Engine) (t : Nat) (o : ProbeOutcome) :
    (pingStep e t o).recorder.outages = e.recorder.outages ∨
      ∃ oo : OutageEvent, (pingStep e t o).recorder.outages =
        e.recorder.outages ++ [{ oo with end_ := some t }] := by
  cases hs : outcomeSuccess o with
  | true =>
      obtain ⟨l, rfl⟩ : ∃ l, o = ProbeOutcome.value (some l) := by
        cases o with
        | value l =>
            cases l with
            | none => simp [outcomeSuccess] at hs
            | some x => exact ⟨x, rfl⟩
        | timeoutError => simp [outcomeSuccess] at hs
        | otherError msg => simp [outcomeSuccess] at hs
      rw [pingStep_success_eq]
      cases hco : e.current_outage with
      | none => left; simp [record_ping]
      | some oo => right; exact ⟨oo, by simp [record_ping, record_outage]⟩
  | false =>
      left
      rw [pingStep_failure_eq e t o hs]
      simp [record_ping]

/-- The speed loop never touches the stored outages. -/
theorem runSpeedSample_outages (e : Engine) (t : Nat)
    (r : Except String SpeedSample) :
    (runSpeedSample e t r).recorder.outages = e.recorder.outages := by
  cases hu : e.speed_blob_url <;> cases r <;>
    simp [runSpeedSample, hu, record_speed]

/-- The `start` call never touches the recorder. -/
theorem start_recorder (e : Engine) (t : Nat) :
    (start e t).recorder = e.recorder := by
  cases hp : e.ping_thread with
  | none => simp [start, hp]
  | some b => cases b <;> simp [start, hp]

/-- The engine returned by `stop` either keeps the stored outages or
appends the force-closed active outage, closed at the stop time. -/
theorem stop_outages (e : Engine) (t : Nat) (fs : Store) :
    ((stop e t fs).1).recorder.outages = e.recorder.outages ∨
      ∃ oo : OutageEvent, ((stop e t fs).1).recorder.outages =
        e.recorder.outages ++ [{ oo with end_ := some t }] := by
  cases hco : e.current_outage with
  | none => left; simp [stop, close_active_outage, hco]
  | some oo =>
      right
      exact ⟨oo, by simp [stop, close_active_outage, hco, record_outage]⟩

/-- Preservation form of the stored-outages invariant over a whole
operation sequence. -/
theorem runOps_outages_closed_aux (ops : List EngineOp) (p : Engine × Store)
    (hinv : ∀ oo ∈ p.1.recorder.outages, oo.end_.isSome) :
    ∀ oo ∈ (runOps p ops).1.recorder.outages, oo.end_.isSome := by
  induction ops generalizing p with
  | nil => exact hinv
  | cons op ops ih =>
      have h1 : runOps p (op :: ops) = runOps (applyOp p op) ops := by
        rw [runOps, runOps, List.foldl_cons]
      rw [h1]
      refine ih (applyOp p op) ?_
      rcases p with ⟨e, fs⟩
      cases op with
      | pingOp t o =>
          rcases pingStep_outages e t o with h | ⟨oo, h⟩
          · intro x hx
            rw [applyOp] at hx
            rw [h] at hx
            exact hinv x hx
          · intro x hx
            rw [applyOp] at hx
            rw [h] at hx
            rcases List.mem_append.mp hx with hx2 | hx2
            · exact hinv x hx2
            · rcases List.mem_singleton.mp hx2 with rfl
              rfl
      | speedOp t r =>
          intro x hx
          rw [applyOp] at hx
          rw [runSpeedSample_outages] at hx
          exact hinv x hx
      | startOp t =>
          intro x hx
          rw [applyOp] at hx
          rw [start_recorder] at hx
          exact hinv x hx
      | stopOp t =>
          rcases stop_outages e t fs with h | ⟨oo, h⟩
          · intro x hx
            rw [applyOp] at hx
            rw [h] at hx
            exact hinv x hx
          · intro x hx
            rw [applyOp] at hx
            rw [h] at hx
            rcases List.mem_append.mp hx with hx2 | hx2
            · exact hinv x hx2
            · rcases List.mem_singleton.mp hx2 with rfl
              rfl

/-- Claim C2: in every reachable state of the monitoring engine, every
outage event present in the session store has its end field set — an
outage is only recorded at the moment it is closed, by a successful
probe or by the force-close during `stop`. -/
theorem stored_outages_are_closed (tg : String) (th : Nat) (url : Option String)
    (bs : Nat) (ops : List EngineOp) (oo : OutageEvent)
    (hmem : oo ∈ (runOps (initEngine tg th url bs, emptyStore) ops).1.recorder.outages) :
    oo.end_.isSome := by
  refine runOps_outages_closed_aux ops (initEngine tg th url bs, emptyStore) ?_ oo hmem
  intro x hx
  simp [initEngine, emptyRecorder] at hx

/-- Witness: with threshold 1, a failure followed by a success stores
one outage, and it is closed. -/
theorem stored_outages_are_closed_witness :
    ({ start := 1, end_ := some 2, failure_count := 1 } : OutageEvent) ∈
        (runOps (initEngine "host" 1 none 0, emptyStore)
          [EngineOp.pingOp 1 (ProbeOutcome.value none),
            EngineOp.pingOp 2 (ProbeOutcome.value (some 5))]).1.recorder.outages ∧
      (Option.isSome (some 2) : Prop) :=
  ⟨by decide,
    stored_outages_are_closed "host" 1 none 0
      [EngineOp.pingOp 1 (ProbeOutcome.value none),
        EngineOp.pingOp 2 (ProbeOutcome.value (some 5))]
      { start := 1, end_ := some 2, failure_count := 1 } (by decide)⟩

/-- Claim C10: when the probe returns no latency without raising, the
recorded sample is a failure with `timeout = false`, no latency and no
error text, and the failed-ping counter is incremented. -/
theorem ping_none_failure_sample (e : Engine) (t : Nat) :
    (pingStep e t (ProbeOutcome.value none)).recorder.pings =
        e.recorder.pings ++
          [{ timestamp := t
             target := e.target
             latency_ms := none
             success := false
             timeout := false
             error := none }] ∧
      (pingStep e t (ProbeOutcome.value none)).failed_pings = e.failed_pings + 1 ∧
      (pingStep e t (ProbeOutcome.value none)).success_pings = e.success_pings ∧
      (pingStep e t (ProbeOutcome.value none)).total_pings = e.total_pings + 1 := by
  rw [pingStep_failure_eq e t (ProbeOutcome.value none) (by rfl)]
  simp [record_ping, outcomeTimeout, outcomeError]

/-- Counterexample to claim C3 as stated: after one `start`, the second
`stop` writes the session file and updates the index again — the write
log grows from one entry to two. -/
theorem stop_twice_double_persists :
    (stop (start (initEngine "host" 3 none 0) 0) 1 emptyStore).2.session_writes.length
        = 1 ∧
      (stop ((stop (start (initEngine "host" 3 none 0) 0) 1 emptyStore).1) 2
          ((stop (start (initEngine "host" 3 none 0) 0) 1 emptyStore).2)).2.session_writes.length
        = 2 ∧
      (stop ((stop (start (initEngine "host" 3 none 0) 0) 1 emptyStore).1) 2
          ((stop (start (initEngine "host" 3 none 0) 0) 1 emptyStore).2)).2.index_writes.length
        = 2 := by
  refine ⟨?_, ?_, ?_⟩ <;> rfl

/-- Amended claim C3: after one `start`, every further `stop` call
persists again — `session_started_at` is never cleared, so the second
`stop` writes the session file once more (under the same session id,
derived from the unchanged start time) and upserts the index again. -/
theorem stop_twice_persist_log (tg : String) (th : Nat) (url : Option String)
    (bs : Nat) (t0 t1 t2 : Nat) :
    (stop ((stop (start (initEngine tg th url bs) t0) t1 emptyStore).1) t2
          ((stop (start (initEngine tg th url bs) t0) t1 emptyStore).2)).2.session_writes.map
        Prod.fst
      = [toString t0, toString t0] ∧
      (stop ((stop (start (initEngine tg th url bs) t0) t1 emptyStore).1) t2
          ((stop (start (initEngine tg th url bs) t0) t1 emptyStore).2)).2.index_writes
        = [toString t0, toString t0] := by
  constructor <;>
    simp [start, stop, close_active_outage, persist_session, initEngine,
      emptyStore, mkSummary, session_id_of]

/-- Counterexample to claim C4 as stated: after a completed
`start`/`stop` cycle, a further `start` relaunches the loops — the ping
thread is alive again, so the engine re-enters the running state. -/
theorem start_after_stop_reenters_running :
    (start ((stop (start (initEngine "host" 3 none 0) 0) 1 emptyStore).1) 2).ping_thread
      = some true := by
  rfl

/-- Amended claim C4: `start` while the ping thread is alive is a no-op,
but the lifecycle is not one-shot — after `stop`, a further `start`
clears the stop signal and relaunches both loops, keeping the original
session start time. -/
theorem start_idempotent_but_restartable :
    (∀ (e : Engine) (t : Nat), e.ping_thread = some true → start e t = e) ∧
      (∀ (tg : String) (th : Nat) (url : Option String) (bs : Nat) (t0 t1 t2 : Nat),
        (start ((stop (start (initEngine tg th url bs) t0) t1 emptyStore).1) t2).ping_thread
            = some true ∧
          (start ((stop (start (initEngine tg th url bs) t0) t1 emptyStore).1) t2).stop_event
            = false ∧
          (start ((stop (start (initEngine tg th url bs) t0) t1
              emptyStore).1) t2).session_started_at
            = some t0) := by
  constructor
  · intro e t h
    simp [start, h]
  · intro tg th url bs t0 t1 t2
    refine ⟨?_, ?_, ?_⟩ <;>
      simp [start, stop, close_active_outage, persist_session, initEngine,
        emptyStore]

/-- Witness: `start` on an engine whose ping thread is alive returns it
unchanged. -/
theorem start_idempotent_witness :
    ({ initEngine "host" 3 none 0 with ping_thread := some true } : Engine).ping_thread
        = some true ∧
      start ({ initEngine "host" 3 none 0 with ping_thread := some true }) 7 =
        { initEngine "host" 3 none 0 with ping_thread := some true } :=
  ⟨by decide,
    start_idempotent_but_restartable.1
      ({ initEngine "host" 3 none 0 with ping_thread := some true }) 7 (by decide)⟩

/-- Counterexample to claim C8 as stated: `stop` without a prior `start`
does change the engine state — it sets the internal cancellation flag —
although it writes nothing. -/
theorem stop_before_start_changes_flag :
    (stop (initEngine "host" 3 none 0) 5 emptyStore).1 ≠ initEngine "host" 3 none 0 ∧
      (stop (initEngine "host" 3 none 0) 5 emptyStore).2 = emptyStore := by
  constructor
  · decide
  · rfl

/-- Amended claim C8: `stop` before any `start` performs no joins,
records no outage, writes no session file and no index update; the only
state change is setting the internal cancellation flag (which a later
`start` clears). -/
theorem stop_before_start_writes_nothing (tg : String) (th : Nat)
    (url : Option String) (bs : Nat) (t : Nat) (fs : Store) :
    stop (initEngine tg th url bs) t fs =
      ({ initEngine tg th url bs with stop_event := true }, fs) := by
  rfl

/-- Claim C5: in the summary computed at shutdown, the uptime ratio is
`success_pings / total_pings` when any pings happened, and `0` when
none did. -/
theorem uptime_ratio_of_summary :
    (∀ (e : Engine) (st et : Nat), 0 < e.total_pings →
        SessionSummary.uptime_ratio (mkSummary e st et) =
          (e.success_pings : ℚ) / (e.total_pings : ℚ)) ∧
      (∀ (e : Engine) (st et : Nat), e.total_pings = 0 →
        SessionSummary.uptime_ratio (mkSummary e st et) = 0) := by
  constructor
  · intro e st et h
    have h2 : e.total_pings ≠ 0 := Nat.pos_iff_ne_zero.mp h
    simp [mkSummary, h2]
  · intro e st et h
    simp [mkSummary, h]

/-- Witness: the uptime ratio is 3/4 after 3 successes out of 4 pings,
and 0 for a fresh engine with no pings. -/
theorem uptime_ratio_of_summary_witness :
    (0 < ({ initEngine "host" 3 none 0 with total_pings := 4, success_pings := 3 }
          : Engine).total_pings ∧
        SessionSummary.uptime_ratio
            (mkSummary ({ initEngine "host" 3 none 0 with
              total_pings := 4, success_pings := 3 }) 0 9) =
          ((({ initEngine "host" 3 none 0 with total_pings := 4, success_pings := 3 }
              : Engine).success_pings : ℚ) /
            (({ initEngine "host" 3 none 0 with total_pings := 4, success_pings := 3 }
              : Engine).total_pings : ℚ))) ∧
      SessionSummary.uptime_ratio (mkSummary (initEngine "host" 3 none 0) 0 9) = 0 :=
  ⟨⟨by decide,
      uptime_ratio_of_summary.1
        ({ initEngine "host" 3 none 0 with total_pings := 4, success_pings := 3 }) 0 9
        (by decide)⟩,
    uptime_ratio_of_summary.2 (initEngine "host" 3 none 0) 0 9 (by decide)⟩

/-- Claim C6: `snapshot` is a point-in-time copy — after any sequence of
further record calls, the new snapshot is the old one extended by
exactly the appended items, in insertion order, for each of the three
kinds; in particular a previously returned snapshot is never mutated. -/
theorem snapshot_is_stable_copy (r : SessionRecorder) (ops : List RecOp) :
    (snapshot (runRecOps r ops)).pings = (snapshot r).pings ++ opsPings ops ∧
      (snapshot (runRecOps r ops)).speeds = (snapshot r).speeds ++ opsSpeeds ops ∧
      (snapshot (runRecOps r ops)).outages = (snapshot r).outages ++ opsOutages ops := by
  induction ops generalizing r with
  | nil => simp [runRecOps, opsPings, opsSpeeds, opsOutages, snapshot]
  | cons op ops ih =>
      have h1 : runRecOps r (op :: ops) = runRecOps (applyRecOp r op) ops := by
        rw [runRecOps, runRecOps, List.foldl_cons]
      have ih2 := ih (applyRecOp r op)
      refine ⟨?_, ?_, ?_⟩
      · rw [h1, ih2.1]
        cases op <;>
          simp [applyRecOp, record_ping, record_speed, record_outage, snapshot,
            opsPings, List.filterMap_cons]
      · rw [h1, ih2.2.1]
        cases op <;>
          simp [applyRecOp, record_ping, record_speed, record_outage, snapshot,
            opsSpeeds, List.filterMap_cons]
      · rw [h1, ih2.2.2]
        cases op <;>
          simp [applyRecOp, record_ping, record_speed, record_outage, snapshot,
            opsOutages, List.filterMap_cons]

/-- Claim C7: an iteration of the speed loop records nothing when no
transfer endpoint is configured; otherwise it records exactly one speed
sample (touching no other collection), and when the transfer raised,
that sample has zero throughput and a present error text — the
exception never escapes the loop body, which is a total function here. -/
theorem speed_loop_one_sample (e : Engine) (t : Nat)
    (res : Except String SpeedSample) :
    (e.speed_blob_url = none → runSpeedSample e t res = e) ∧
      (e.speed_blob_url ≠ none →
        ((runSpeedSample e t res).recorder.pings = e.recorder.pings ∧
            (runSpeedSample e t res).recorder.outages = e.recorder.outages) ∧
          (∀ s, res = Except.ok s →
            (runSpeedSample e t res).recorder.speeds =
              e.recorder.speeds ++ [{ s with timestamp := t }]) ∧
          (∀ msg, res = Except.error msg →
            ∃ sp : SpeedSample,
              (runSpeedSample e t res).recorder.speeds = e.recorder.speeds ++ [sp] ∧
                sp.throughput_mbps = 0 ∧ sp.error ≠ none ∧ sp.error = some msg)) := by
  cases hu : e.speed_blob_url with
  | none =>
      refine ⟨fun _ => ?_, fun hne => absurd rfl hne⟩
      simp [runSpeedSample, hu]
  | some u =>
      refine ⟨fun h => ?_, fun _ => ⟨⟨?_, ?_⟩, ?_, ?_⟩⟩
      · exact absurd h (by simp)
      · cases res <;> simp [runSpeedSample, hu, record_speed]
      · cases res <;> simp [runSpeedSample, hu, record_speed]
      · intro s hs
        rw [hs]
        simp [runSpeedSample, hu, record_speed]
      · intro msg hmsg
        rw [hmsg]
        refine ⟨{ timestamp := t
                  direction := "download"
                  size_bytes := e.speed_blob_bytes
                  duration_seconds := 0
                  throughput_mbps := 0
                  error := some msg }, ?_, rfl, by simp, rfl⟩
        simp [runSpeedSample, hu, record_speed]

/-- Witness: with an endpoint configured and a transfer that raises
`"boom"`, exactly one zero-throughput erroring sample is recorded. -/
theorem speed_loop_one_sample_witness :
    (initEngine "host" 3 (some "http://blob") 512).speed_blob_url ≠ none ∧
      (∃ sp : SpeedSample,
        (runSpeedSample (initEngine "host" 3 (some "http://blob") 512) 5
              (Except.error "boom")).recorder.speeds =
            (initEngine "host" 3 (some "http://blob") 512).recorder.speeds ++ [sp] ∧
          sp.throughput_mbps = 0 ∧ sp.error ≠ none ∧ sp.error = some "boom") :=
  ⟨by decide,
    ((speed_loop_one_sample (initEngine "host" 3 (some "http://blob") 512) 5
          (Except.error "boom")).2 (by decide)).2.2 "boom" rfl⟩

/-- Looking up the upserted key finds the new entry. -/
theorem lookup_upsert_self (l : List (String × IndexEntry)) (sid : String)
    (v : IndexEntry) : lookupKey (upsertEntry l sid v) sid = some v := by
  induction l with
  | nil => simp [upsertEntry, lookupKey]
  | cons kv rest ih =>
      rcases kv with ⟨k, v0⟩
      by_cases hk : k = sid <;> simp [upsertEntry, lookupKey, hk, ih]

/-- Looking up any other key is unchanged by the upsert. -/
theorem lookup_upsert_other (l : List (String × IndexEntry)) (sid : String)
    (v : IndexEntry) (k : String) (hk : k ≠ sid) :
    lookupKey (upsertEntry l sid v) k = lookupKey l k := by
  induction l with
  | nil => simp [upsertEntry, lookupKey, Ne.symm hk]
  | cons kv rest ih =>
      rcases kv with ⟨k0, v0⟩
      by_cases h0 : k0 = sid
      · subst h0
        simp [upsertEntry, lookupKey, Ne.symm hk]
      · simp [upsertEntry, lookupKey, h0, ih]

/-- Claim C9: `_update_index` is read-merge-write — every entry of the
prior index under a different session id survives unchanged, the
current session's entry is upserted, and missing or malformed prior
content is treated exactly like an empty index. -/
theorem update_index_read_merge_write (prior : IndexRead) (sid : String)
    (entry : IndexEntry) :
    (∀ k, k ≠ sid →
        lookupKey (update_index prior sid entry) k = lookupKey (indexBase prior) k) ∧
      lookupKey (update_index prior sid entry) sid = some entry ∧
      update_index IndexRead.missing sid entry =
        update_index (IndexRead.parsed []) sid entry ∧
      update_index IndexRead.malformed sid entry =
        update_index (IndexRead.parsed []) sid entry := by
  refine ⟨fun k hk => ?_, ?_, rfl, rfl⟩
  · exact lookup_upsert_other (indexBase prior) sid entry k hk
  · exact lookup_upsert_self (indexBase prior) sid entry

/-- Witness: upserting session `"a"` into an index holding `"b"` keeps
the `"b"` entry and stores the `"a"` entry. -/
theorem update_index_read_merge_write_witness :
    ("b" : String) ≠ "a" ∧
      lookupKey
          (update_index
            (IndexRead.parsed
              [("b",
                { file := "f.json"
                  start := 1
                  end_ := 2
                  duration_seconds := 1
                  uptime_ratio := 1 })])
            "a"
            { file := "g.json"
              start := 3
              end_ := 4
              duration_seconds := 1
              uptime_ratio := 0 })
          "b" =
        lookupKey
          (indexBase
            (IndexRead.parsed
              [("b",
                { file := "f.json"
                  start := 1
                  end_ := 2
                  duration_seconds := 1
                  uptime_ratio := 1 })]))
          "b" :=
  ⟨by decide,
    (update_index_read_merge_write
        (IndexRead.parsed
          [("b",
            { file := "f.json"
              start := 1
              end_ := 2
              duration_seconds := 1
              uptime_ratio := 1 })])
        "a"
        { file := "g.json"
          start := 3
          end_ := 4
          duration_seconds := 1
          uptime_ratio := 0 }).1
      "b" (by decide)⟩
